import Mathlib

/-!
Shallow embedding of the core of the `abby` DAW-bridge server and proofs about
its behaviour.  The definitions are translated from the TypeScript source:

* `src/ableton.ts` — the `OSCHandler` class: the request/response shim
  (`sendOSC`), track/device enumeration (`getTracksDevices`), the parameter
  list query (`getParameters`), the parameter observer
  (`subscribeToDeviceParameters` and its notification handler), the windowed
  change history (`getRecentParameterChanges`), and the liveness probe
  (`isLive`).
* `src/agent.ts` — `generateResponse` (tool execution wrapper).
* the main server module — `processMessage` (the agent loop) and the startup
  liveness check.

Machine floats in the source are modelled as rationals (`ℚ`), wall-clock
milliseconds as integers (`ℤ`).  Asynchronous callback code is modelled as
explicit state passing: the notification handler plus `setTimeout` debounce
machinery becomes a step function over an observer state, driven by a
time-ordered list of inbound notifications.
-/

/-- An OSC argument: the remote script sends numbers and strings. -/
inductive OSCValue
  | num (q : ℚ)
  | str (s : String)
deriving DecidableEq, Repr

/-- One OSC message payload (the argument list). -/
abbrev OSCArgs := List OSCValue

/-! ### The request/response shim: `sendOSC` (src/ableton.ts:110-119)

`sendOSC` registers a handler on the request address and resolves the promise
with the first inbound message on that address, removing the handler at that
point.  The promise has no reject path and no timer.  `CallState` tracks one
in-flight call: whether its handler is still registered and the value the
promise has resolved with (if any).  The inbound datagram stream after the
request is sent is modelled as a list of `(address, args)` pairs. -/

structure CallState where
  registered : Bool
  result : Option OSCArgs
deriving DecidableEq, Repr

/-- Effect of one inbound OSC message on a pending `sendOSC` call: the
single-shot handler fires on an exact address match, deregisters itself
(`removeListener`) and resolves the promise. -/
def sendOSCStep (address : String) (st : CallState) (msg : String × OSCArgs) : CallState :=
  if st.registered && msg.1 == address then
    { registered := false, result := some msg.2 }
  else
    st

/-- State of a `sendOSC address` call after the inbound stream `inbound` has
been processed.  Initially the handler is registered and the promise pending. -/
def sendOSCRun (address : String) (inbound : List (String × OSCArgs)) : CallState :=
  inbound.foldl (sendOSCStep address) { registered := true, result := none }

/-! ### The parameter-list query: `getParameters` (src/ableton.ts:376-410) -/

/-- One element of the list `getParameters` returns.  In the source an
out-of-range array access yields `undefined`, modelled by `Option`. -/
structure RawParameter where
  param_id : Nat
  name : Option OSCValue
  value : Option OSCValue
  min : Option OSCValue
  max : Option OSCValue
deriving DecidableEq, Repr

/-- `getParameters` over the four raw replies: the source builds
`Array.from({length: names.length}).slice(2)` and maps index `k` to an entry
with `param_id = k` whose fields are read at raw index `k + 2`. -/
def getParameters (names values mins maxes : OSCArgs) : List RawParameter :=
  (List.range (names.length - 2)).map fun index =>
    { param_id := index
      name := names.get? (index + 2)
      value := values.get? (index + 2)
      min := mins.get? (index + 2)
      max := maxes.get? (index + 2) }

/-! ### Theorems for C5 and C4 -/

lemma sendOSCStep_stuck (address : String) (st : CallState) (h : st.registered = false)
    (msg : String × OSCArgs) : sendOSCStep address st msg = st := by
  simp [sendOSCStep, h]

lemma foldl_sendOSCStep_stuck (address : String) (st : CallState) (h : st.registered = false) :
    ∀ inbound : List (String × OSCArgs), inbound.foldl (sendOSCStep address) st = st := by
  intro inbound
  induction inbound with
  | nil => rfl
  | cons m rest ih => rw [List.foldl_cons, sendOSCStep_stuck address st h m, ih]

/-- C5 (amended): a `sendOSC` call resolves exactly when some inbound message
matches the request address, and then with the first such message's payload;
the single-shot handler is deregistered exactly upon that reply.  There is no
timeout path: on an inbound stream with no matching reply the promise stays
pending and the handler stays registered forever. -/
theorem sendOSCRun_spec (address : String) (inbound : List (String × OSCArgs)) :
    (sendOSCRun address inbound).result
      = ((inbound.find? fun m => m.1 == address).map Prod.snd)
    ∧ (sendOSCRun address inbound).registered = (sendOSCRun address inbound).result.isNone := by
  induction inbound with
  | nil => exact ⟨rfl, rfl⟩
  | cons m rest ih =>
      by_cases hm : m.1 = address
      · have hstep : sendOSCStep address { registered := true, result := none } m
            = { registered := false, result := some m.2 } := by
          simp [sendOSCStep, hm]
        have hrun : sendOSCRun address (m :: rest)
            = { registered := false, result := some m.2 } := by
          unfold sendOSCRun
          rw [List.foldl_cons, hstep]
          exact foldl_sendOSCStep_stuck address _ rfl rest
        rw [hrun]
        constructor
        · rw [List.find?_cons_of_pos _ (by simp [hm])]
          rfl
        · rfl
      · have hstep : sendOSCStep address { registered := true, result := none } m
            = { registered := true, result := none } := by
          simp [sendOSCStep, hm]
        have hrun : sendOSCRun address (m :: rest) = sendOSCRun address rest := by
          unfold sendOSCRun
          rw [List.foldl_cons, hstep]
        rw [hrun, List.find?_cons_of_neg _ (by simp [hm])]
        exact ih

/-- C5 counterexample: the claim says every `sendOSC` call completes with
either the reply or a timeout error, even when no reply ever arrives.  On the
empty inbound stream (no reply ever arrives) the call does not complete — the
promise resolution is absent (`result = none`; the embedding has no
timeout-error outcome because the source constructs a `Promise` with no reject
path and no timer) — and the handler is still registered, so it is not
deregistered on that outcome either. -/
theorem sendOSC_never_completes_without_reply :
    (sendOSCRun "/live/song/get/num_tracks" []).result.isSome = false
    ∧ (sendOSCRun "/live/song/get/num_tracks" []).registered = true :=
  ⟨rfl, rfl⟩

/-- C4: `getParameters` drops the first two entries of the raw replies: it
returns `L - 2` entries where `L` is the length of the names reply, and the
`k`-th entry has `param_id = k` with name, value, min and max read from raw
reply index `k + 2`. -/
theorem getParameters_spec (names values mins maxes : OSCArgs) (k : Nat)
    (hk : k < names.length - 2) :
    (getParameters names values mins maxes).length = names.length - 2
    ∧ (getParameters names values mins maxes).get? k
        = some { param_id := k
                 name := names.get? (k + 2)
                 value := values.get? (k + 2)
                 min := mins.get? (k + 2)
                 max := maxes.get? (k + 2) } := by
  constructor
  · simp [getParameters]
  · simp only [getParameters, List.get?_eq_getElem?, List.getElem?_map]
    rw [List.getElem?_range hk]
    rfl

/-- Concrete instance of `getParameters_spec`: a device whose raw replies have
five entries yields three parameters; parameter `k = 1` is read from raw
index 3. -/
theorem getParameters_spec_witness :
    (1 < ([OSCValue.str "ph0", OSCValue.str "ph1", OSCValue.str "Attack",
           OSCValue.str "Decay", OSCValue.str "Sustain"] : OSCArgs).length - 2)
    ∧ ((getParameters
          [OSCValue.str "ph0", OSCValue.str "ph1", OSCValue.str "Attack",
           OSCValue.str "Decay", OSCValue.str "Sustain"]
          [OSCValue.num 0, OSCValue.num 0, OSCValue.num 1, OSCValue.num 2, OSCValue.num 3]
          [OSCValue.num 0, OSCValue.num 0, OSCValue.num 0, OSCValue.num 0, OSCValue.num 0]
          [OSCValue.num 1, OSCValue.num 1, OSCValue.num 5, OSCValue.num 5, OSCValue.num 5]).length
        = 3
      ∧ (getParameters
          [OSCValue.str "ph0", OSCValue.str "ph1", OSCValue.str "Attack",
           OSCValue.str "Decay", OSCValue.str "Sustain"]
          [OSCValue.num 0, OSCValue.num 0, OSCValue.num 1, OSCValue.num 2, OSCValue.num 3]
          [OSCValue.num 0, OSCValue.num 0, OSCValue.num 0, OSCValue.num 0, OSCValue.num 0]
          [OSCValue.num 1, OSCValue.num 1, OSCValue.num 5, OSCValue.num 5, OSCValue.num 5]).get? 1
        = some { param_id := 1
                 name := some (OSCValue.str "Decay")
                 value := some (OSCValue.num 2)
                 min := some (OSCValue.num 0)
                 max := some (OSCValue.num 5) }) :=
  ⟨by decide, getParameters_spec _ _ _ _ 1 (by decide)⟩

/-! ### Track/device enumeration: `getTracksDevices` (src/ableton.ts:120-193)

The DAW's replies are modelled as an oracle `DAWReplies`.  The reply to
`/live/track/get/num_devices [t]` is a list whose element at index 1 carries
the device count (the source reads `reply[1]`); the replies to
`/live/track/get/devices/name` and `.../class_name` echo the track index at
index 0, which the source skips with `slice(1)` and `[index + 1]`. -/

structure DAWReplies where
  trackData : OSCArgs
  numDevicesReply : Nat → OSCArgs
  deviceNamesReply : Nat → OSCArgs
  deviceClassesReply : Nat → OSCArgs
  paramNamesReply : Nat → Nat → OSCArgs
  paramValuesReply : Nat → Nat → OSCArgs
  paramMinsReply : Nat → Nat → OSCArgs
  paramMaxesReply : Nat → Nat → OSCArgs

/-- One device of a track summary (source object `{id, name, class}`). -/
structure DeviceSummary where
  id : Nat
  name : OSCValue
  «class» : Option OSCValue
deriving DecidableEq, Repr

/-- One entry of the summary `getTracksDevices` returns. -/
structure TrackSummary where
  track_id : Nat
  track_name : OSCValue
  devices : List DeviceSummary
deriving DecidableEq, Repr

/-- The device list built for one track (src/ableton.ts:172-178). -/
def buildDevices (names classes : OSCArgs) : List DeviceSummary :=
  (names.drop 1).enum.map fun p =>
    { id := p.1, name := p.2, «class» := classes.get? (p.1 + 1) }

/-- `getTracksDevices`: iterate `track_data.entries()`; a track whose
`num_devices` reply carries 0 at index 1 is skipped (`continue`,
src/ableton.ts:159-161); otherwise a summary entry is pushed. -/
def getTracksDevices (daw : DAWReplies) : List TrackSummary :=
  daw.trackData.enum.filterMap fun p =>
    if (daw.numDevicesReply p.1).get? 1 = some (OSCValue.num 0) then
      none
    else
      some { track_id := p.1
             track_name := p.2
             devices := buildDevices (daw.deviceNamesReply p.1) (daw.deviceClassesReply p.1) }

/-- The `/live/device/start_listen/parameter/value` messages sent by
`subscribeToDeviceParameters` (src/ableton.ts:219-249): for every track of the
summary, every device of the track and every parameter returned by
`getParameters`, one `[track_id, device_id, param_id]` triple. -/
def subscribeStartListenMessages (daw : DAWReplies) : List (Nat × Nat × Nat) :=
  (getTracksDevices daw).flatMap fun track =>
    track.devices.flatMap fun device =>
      (getParameters (daw.paramNamesReply track.track_id device.id)
          (daw.paramValuesReply track.track_id device.id)
          (daw.paramMinsReply track.track_id device.id)
          (daw.paramMaxesReply track.track_id device.id)).map fun param =>
        (track.track_id, device.id, param.param_id)

/-- C10: a track whose `num_devices` reply is 0 is omitted from the summary
returned by `getTracksDevices`, and consequently no
`start_listen` subscription message is ever sent for any of its parameters. -/
theorem deviceless_track_omitted (daw : DAWReplies) (t : Nat)
    (h0 : (daw.numDevicesReply t).get? 1 = some (OSCValue.num 0)) :
    (∀ s ∈ getTracksDevices daw, s.track_id ≠ t)
    ∧ (∀ m ∈ subscribeStartListenMessages daw, m.1 ≠ t) := by
  have hsum : ∀ s ∈ getTracksDevices daw, s.track_id ≠ t := by
    intro s hs
    rcases List.mem_filterMap.mp hs with ⟨p, _, hp⟩
    by_cases hguard : (daw.numDevicesReply p.1).get? 1 = some (OSCValue.num 0)
    · rw [if_pos hguard] at hp
      exact absurd hp (by simp)
    · rw [if_neg hguard] at hp
      have hs' := Option.some.inj hp
      intro hst
      apply hguard
      have hp1 : p.1 = s.track_id := by rw [← hs']
      rw [hp1, hst]
      exact h0
  refine ⟨hsum, ?_⟩
  intro m hm
  rcases List.mem_flatMap.mp hm with ⟨track, htrack, hm'⟩
  rcases List.mem_flatMap.mp hm' with ⟨device, _, hm''⟩
  rcases List.mem_map.mp hm'' with ⟨param, _, hp⟩
  have : m.1 = track.track_id := by rw [← hp]
  rw [this]
  exact hsum track htrack

/-- Concrete instance of `deviceless_track_omitted`: with two tracks where
track 0 reports zero devices and track 1 reports two, track 0 appears in no
summary entry and in no subscription message. -/
theorem deviceless_track_omitted_witness :
    ((fun t => if t = 0 then ([OSCValue.num 0, OSCValue.num 0] : OSCArgs)
               else [OSCValue.num 1, OSCValue.num 2]) 0).get? 1 = some (OSCValue.num 0)
    ∧ ((∀ s ∈ getTracksDevices
          { trackData := [OSCValue.str "Drums", OSCValue.str "Bass"]
            numDevicesReply := fun t => if t = 0 then [OSCValue.num 0, OSCValue.num 0]
                                        else [OSCValue.num 1, OSCValue.num 2]
            deviceNamesReply := fun t => [OSCValue.num t, OSCValue.str "Op", OSCValue.str "Comp"]
            deviceClassesReply := fun t => [OSCValue.num t, OSCValue.str "Operator",
                                            OSCValue.str "Compressor"]
            paramNamesReply := fun _ _ => [OSCValue.str "ph0", OSCValue.str "ph1",
                                           OSCValue.str "Volume"]
            paramValuesReply := fun _ _ => [OSCValue.num 0, OSCValue.num 0, OSCValue.num 1]
            paramMinsReply := fun _ _ => [OSCValue.num 0, OSCValue.num 0, OSCValue.num 0]
            paramMaxesReply := fun _ _ => [OSCValue.num 0, OSCValue.num 0, OSCValue.num 2] },
          s.track_id ≠ 0)
      ∧ (∀ m ∈ subscribeStartListenMessages
          { trackData := [OSCValue.str "Drums", OSCValue.str "Bass"]
            numDevicesReply := fun t => if t = 0 then [OSCValue.num 0, OSCValue.num 0]
                                        else [OSCValue.num 1, OSCValue.num 2]
            deviceNamesReply := fun t => [OSCValue.num t, OSCValue.str "Op", OSCValue.str "Comp"]
            deviceClassesReply := fun t => [OSCValue.num t, OSCValue.str "Operator",
                                            OSCValue.str "Compressor"]
            paramNamesReply := fun _ _ => [OSCValue.str "ph0", OSCValue.str "ph1",
                                           OSCValue.str "Volume"]
            paramValuesReply := fun _ _ => [OSCValue.num 0, OSCValue.num 0, OSCValue.num 1]
            paramMinsReply := fun _ _ => [OSCValue.num 0, OSCValue.num 0, OSCValue.num 0]
            paramMaxesReply := fun _ _ => [OSCValue.num 0, OSCValue.num 0, OSCValue.num 2] },
          m.1 ≠ 0)) :=
  ⟨rfl, deviceless_track_omitted _ 0 rfl⟩

/-! ### The parameter observer (src/ableton.ts:199-335)

`subscribeToDeviceParameters` stores one `ParameterData` record per parameter
and registers a single handler on `/live/device/get/parameter/value`.  The
handler drops initial-flagged and unchanged values and otherwise (re)schedules
a 500 ms debounce timeout whose callback commits one `ParameterChange`.

The embedding models one observed parameter: `ObserverState` holds the map
lookup result for its key (`none` = no observation stored), the global change
history and the stream of `parameter_change` websocket events.  The JS timer
handle becomes the scheduled fire time paired with the `newValue` captured by
the `setTimeout` closure; `clearTimeout` + `setTimeout` is modelled by
replacing that field.  A run processes a time-ordered list of notifications,
firing a due timer before handling a later notification (the event loop runs
timer callbacks once their deadline has passed). -/

/-- A committed change record (src/ableton.ts:5-17 and 289-301). -/
structure ParameterChange where
  trackId : Nat
  trackName : String
  deviceId : Nat
  deviceName : String
  paramId : Nat
  paramName : String
  oldValue : ℚ
  newValue : ℚ
  min : ℚ
  max : ℚ
  timestamp : Int
deriving DecidableEq, Repr

/-- The per-parameter observation record (src/ableton.ts:19-32).
`debounceTimer` carries the pending fire time and the value captured by the
scheduled callback. -/
structure ParameterData where
  trackId : Nat
  trackName : String
  deviceId : Nat
  deviceName : String
  paramId : Nat
  paramName : String
  value : ℚ
  min : ℚ
  max : ℚ
  debounceTimer : Option (Int × ℚ)
  isInitialValue : Bool
  timeLastModified : Int
deriving DecidableEq, Repr

/-- The observation record inserted at subscribe time (src/ableton.ts:227-239).
Note the source initializes `isInitialValue` to `false`. -/
def mkObservation (trackId : Nat) (trackName : String) (deviceId : Nat) (deviceName : String)
    (paramId : Nat) (paramName : String) (value lo hi : ℚ) (now : Int) : ParameterData :=
  { trackId := trackId, trackName := trackName, deviceId := deviceId, deviceName := deviceName
    paramId := paramId, paramName := paramName, value := value, min := lo, max := hi
    debounceTimer := none, isInitialValue := false, timeLastModified := now }

/-- Observer state for one subscribed parameter. -/
structure ObserverState where
  metadata : Option ParameterData
  parameterChangeHistory : List ParameterChange
  sentEvents : List ParameterChange
deriving DecidableEq, Repr

/-- The debounce interval: the source hardcodes `500` ms (src/ableton.ts:327). -/
def debounceInterval : Int := 500

/-- The change record built by the debounce callback (src/ableton.ts:289-301):
`oldValue` is the stored value, `newValue` the value captured at schedule
time, timestamp the commit time. -/
def mkChange (m : ParameterData) (newValue : ℚ) (now : Int) : ParameterChange :=
  { trackId := m.trackId, trackName := m.trackName, deviceId := m.deviceId
    deviceName := m.deviceName, paramId := m.paramId, paramName := m.paramName
    oldValue := m.value, newValue := newValue, min := m.min, max := m.max
    timestamp := now }

/-- The debounce callback firing (src/ableton.ts:288-327): push the change to
the history, update the stored value, clear the timer, send the
`parameter_change` event.  No-op when no timer is pending. -/
def fireTimer (st : ObserverState) : ObserverState :=
  match st.metadata with
  | none => st
  | some m =>
    match m.debounceTimer with
    | none => st
    | some (fireAt, newValue) =>
      let change := mkChange m newValue fireAt
      { metadata := some { m with value := newValue, timeLastModified := fireAt,
                                  debounceTimer := none }
        parameterChangeHistory := st.parameterChangeHistory ++ [change]
        sentEvents := st.sentEvents ++ [change] }

/-- The notification handler (src/ableton.ts:264-329) for an inbound value
`newValue` arriving at time `t`: absent observation — drop; `isInitialValue`
set — clear the flag and drop; unchanged value — drop; otherwise clear any
pending timeout and schedule a commit at `t + 500`. -/
def handleNotification (t : Int) (newValue : ℚ) (st : ObserverState) : ObserverState :=
  match st.metadata with
  | none => st
  | some m =>
    if m.isInitialValue then
      { st with metadata := some { m with isInitialValue := false } }
    else if m.value = newValue then
      st
    else
      { st with metadata := some { m with debounceTimer := some (t + debounceInterval, newValue) } }

/-- Fire the pending timer if its deadline has passed by time `t`. -/
def advanceTo (t : Int) (st : ObserverState) : ObserverState :=
  match st.metadata with
  | none => st
  | some m =>
    match m.debounceTimer with
    | none => st
    | some (fireAt, _) => if fireAt ≤ t then fireTimer st else st

/-- Process a time-ordered list of `(arrival time, value)` notifications. -/
def runNotifications (st : ObserverState) : List (Int × ℚ) → ObserverState
  | [] => st
  | (t, v) :: rest => runNotifications (handleNotification t v (advanceTo t st)) rest

/-- Process a burst of notifications and then let silence elapse: any timer
still pending after the last notification fires. -/
def runBurst (st : ObserverState) (ns : List (Int × ℚ)) : ObserverState :=
  fireTimer (runNotifications st ns)

/-! ### C2: the first notification after subscribing -/

/-- C2 (code bug): the observation created at subscribe time already has
`isInitialValue = false` (src/ableton.ts:237), so the initial-drop branch of
the handler (src/ableton.ts:271-275) can never fire for a fresh subscription.
A first notification whose value differs from the stored snapshot value (here
stored 2, notified 3, range [0,5], arriving at t = 1000) is **not** dropped:
it schedules the debounce and commits a `ParameterChange` (old 2, new 3,
timestamp 1500) into the history and the event stream. -/
theorem first_notification_committed_not_dropped :
    (mkObservation 0 "Drums" 0 "Kit" 3 "Decay" 2 0 5 0).isInitialValue = false
    ∧ ((runBurst { metadata := some (mkObservation 0 "Drums" 0 "Kit" 3 "Decay" 2 0 5 0)
                   parameterChangeHistory := []
                   sentEvents := [] } [(1000, 3)]).parameterChangeHistory.map
        fun c => (c.oldValue, c.newValue, c.timestamp)) = [(2, 3, 1500)]
    ∧ ((runBurst { metadata := some (mkObservation 0 "Drums" 0 "Kit" 3 "Decay" 2 0 5 0)
                   parameterChangeHistory := []
                   sentEvents := [] } [(1000, 3)]).sentEvents.length = 1) :=
  ⟨rfl, rfl, rfl⟩

/-! ### C9: notifications carrying an unchanged value -/

/-- C9 (amended): a notification whose value equals the observation's stored
value is dropped without scheduling or resetting a debounce timer (the state
is left entirely unchanged), and hence two consecutive notifications each
carrying the stored value produce zero commits.  (Two consecutive
notifications that merely carry a value identical to each other but different
from the stored value still commit once — see the counterexample.) -/
theorem unchanged_value_dropped (st : ObserverState) (m : ParameterData)
    (hm : st.metadata = some m) (hInit : m.isInitialValue = false)
    (m0 : ParameterData) (hInit0 : m0.isInitialValue = false)
    (hPend0 : m0.debounceTimer = none) (t t1 t2 : Int) (v : ℚ) (hv : v = m.value) :
    handleNotification t v st = st
    ∧ runBurst { metadata := some m0, parameterChangeHistory := [], sentEvents := [] }
        [(t1, m0.value), (t2, m0.value)]
      = { metadata := some m0, parameterChangeHistory := [], sentEvents := [] } := by
  constructor
  · simp [handleNotification, hm, hInit, hv]
  · simp [runBurst, runNotifications, advanceTo, handleNotification, fireTimer, hInit0, hPend0]

/-- Concrete instance of `unchanged_value_dropped`: stored value 7 (range
[0, 10]), two notifications carrying 7 at t = 0 and t = 100 leave the observer
state untouched. -/
theorem unchanged_value_dropped_witness :
    ({ metadata := some (mkObservation 1 "Bass" 0 "Op" 2 "Volume" 7 0 10 0)
       parameterChangeHistory := []
       sentEvents := [] } : ObserverState).metadata
        = some (mkObservation 1 "Bass" 0 "Op" 2 "Volume" 7 0 10 0)
    ∧ (mkObservation 1 "Bass" 0 "Op" 2 "Volume" 7 0 10 0).isInitialValue = false
    ∧ (mkObservation 1 "Bass" 0 "Op" 2 "Volume" 7 0 10 0).debounceTimer = none
    ∧ (7 : ℚ) = (mkObservation 1 "Bass" 0 "Op" 2 "Volume" 7 0 10 0).value
    ∧ (handleNotification 0 7
        { metadata := some (mkObservation 1 "Bass" 0 "Op" 2 "Volume" 7 0 10 0)
          parameterChangeHistory := []
          sentEvents := [] }
        = { metadata := some (mkObservation 1 "Bass" 0 "Op" 2 "Volume" 7 0 10 0)
            parameterChangeHistory := []
            sentEvents := [] })
    ∧ (runBurst { metadata := some (mkObservation 1 "Bass" 0 "Op" 2 "Volume" 7 0 10 0)
                  parameterChangeHistory := []
                  sentEvents := [] }
          [(0, (mkObservation 1 "Bass" 0 "Op" 2 "Volume" 7 0 10 0).value),
           (100, (mkObservation 1 "Bass" 0 "Op" 2 "Volume" 7 0 10 0).value)]
        = { metadata := some (mkObservation 1 "Bass" 0 "Op" 2 "Volume" 7 0 10 0)
            parameterChangeHistory := []
            sentEvents := [] }) :=
  ⟨rfl, rfl, rfl, rfl,
   (unchanged_value_dropped
      { metadata := some (mkObservation 1 "Bass" 0 "Op" 2 "Volume" 7 0 10 0)
        parameterChangeHistory := []
        sentEvents := [] }
      (mkObservation 1 "Bass" 0 "Op" 2 "Volume" 7 0 10 0) rfl rfl
      (mkObservation 1 "Bass" 0 "Op" 2 "Volume" 7 0 10 0) rfl rfl 0 0 100 7 rfl).1,
   (unchanged_value_dropped
      { metadata := some (mkObservation 1 "Bass" 0 "Op" 2 "Volume" 7 0 10 0)
        parameterChangeHistory := []
        sentEvents := [] }
      (mkObservation 1 "Bass" 0 "Op" 2 "Volume" 7 0 10 0) rfl rfl
      (mkObservation 1 "Bass" 0 "Op" 2 "Volume" 7 0 10 0) rfl rfl 0 0 100 7 rfl).2⟩

/-- C9 counterexample: two consecutive notifications carrying identical values
(both 1, at t = 0 and t = 100) against a stored value 0 produce one debounce
commit, not zero: the second is not dropped (1 ≠ stored 0), it resets the
timer, and the commit (old 0, new 1, timestamp 600) lands in the history. -/
theorem identical_pair_commits_once :
    ((runBurst { metadata := some (mkObservation 0 "T" 0 "D" 0 "P" 0 0 1 0)
                 parameterChangeHistory := []
                 sentEvents := [] } [(0, 1), (100, 1)]).parameterChangeHistory.map
        fun c => (c.oldValue, c.newValue, c.timestamp)) = [(0, 1, 600)]
    ∧ (runBurst { metadata := some (mkObservation 0 "T" 0 "D" 0 "P" 0 0 1 0)
                  parameterChangeHistory := []
                  sentEvents := [] } [(0, 1), (100, 1)]).parameterChangeHistory ≠ [] := by
  constructor
  · rfl
  · decide

/-! ### C1: a burst of changes debounces to one commit -/

/-- Helper lemmas about the observer step functions, used by the burst and
invariant proofs below. -/
lemma advanceTo_no_timer (t : Int) (m : ParameterData) (h0 e0 : List ParameterChange)
    (hm : m.debounceTimer = none) :
    advanceTo t { metadata := some m, parameterChangeHistory := h0, sentEvents := e0 }
      = { metadata := some m, parameterChangeHistory := h0, sentEvents := e0 } := by
  simp [advanceTo, hm]

lemma advanceTo_not_due (t fireAt : Int) (pv : ℚ) (m : ParameterData)
    (h0 e0 : List ParameterChange) (hm : m.debounceTimer = some (fireAt, pv))
    (h : ¬ fireAt ≤ t) :
    advanceTo t { metadata := some m, parameterChangeHistory := h0, sentEvents := e0 }
      = { metadata := some m, parameterChangeHistory := h0, sentEvents := e0 } := by
  simp [advanceTo, hm, h]

lemma handleNotification_schedules (t : Int) (v : ℚ) (m : ParameterData)
    (h0 e0 : List ParameterChange) (hInit : m.isInitialValue = false)
    (hne : ¬ m.value = v) :
    handleNotification t v { metadata := some m, parameterChangeHistory := h0, sentEvents := e0 }
      = { metadata := some { m with debounceTimer := some (t + debounceInterval, v) }
          parameterChangeHistory := h0, sentEvents := e0 } := by
  simp [handleNotification, hInit, hne]

lemma fireTimer_pending (m : ParameterData) (fireAt : Int) (pv : ℚ)
    (h0 e0 : List ParameterChange) (hm : m.debounceTimer = some (fireAt, pv)) :
    fireTimer { metadata := some m, parameterChangeHistory := h0, sentEvents := e0 }
      = { metadata := some { m with value := pv, timeLastModified := fireAt,
                                    debounceTimer := none }
          parameterChangeHistory := h0 ++ [mkChange m pv fireAt]
          sentEvents := e0 ++ [mkChange m pv fireAt] } := by
  simp [fireTimer, hm]

/-- `withinDebounce tprev ns`: each notification of `ns` arrives strictly
after the previous one and strictly within the debounce interval of it. -/
def withinDebounce : Int → List (Int × ℚ) → Bool
  | _, [] => true
  | tprev, (t, _) :: rest =>
      (decide (tprev < t) && decide (t < tprev + debounceInterval)) && withinDebounce t rest

/-- The last notification of a burst (`tv` if the tail is empty). -/
def lastTV : (Int × ℚ) → List (Int × ℚ) → Int × ℚ
  | tv, [] => tv
  | _, x :: rest => lastTV x rest

/-- The timer scheduled by the last notification of a burst: it fires one
debounce interval after the last arrival, capturing the last value. -/
def lastFire (tv : Int × ℚ) (rest : List (Int × ℚ)) : Int × ℚ :=
  ((lastTV tv rest).1 + debounceInterval, (lastTV tv rest).2)

/-- While each further notification of a burst lands within the debounce
interval of the previous one and carries a value different from the stored
(last committed) one, the handler only replaces the pending timer: no commit
happens and the timer ends up scheduled for the last notification's time plus
the debounce interval, capturing the last value. -/
lemma runNotifications_chain :
    ∀ (rest : List (Int × ℚ)) (m : ParameterData) (tc : Int) (vc : ℚ)
      (h0 e0 : List ParameterChange),
      m.isInitialValue = false →
      m.debounceTimer = some (tc + debounceInterval, vc) →
      withinDebounce tc rest = true →
      (∀ tv ∈ rest, (tv : Int × ℚ).2 ≠ m.value) →
      runNotifications { metadata := some m, parameterChangeHistory := h0, sentEvents := e0 } rest
        = { metadata := some { m with debounceTimer := some (lastFire (tc, vc) rest) }
            parameterChangeHistory := h0, sentEvents := e0 } := by
  intro rest
  induction rest with
  | nil =>
      intro m tc vc h0 e0 _ hPend _ _
      simp only [runNotifications, lastFire, lastTV]
      rw [← hPend]
  | cons tv rest ih =>
      obtain ⟨t, v⟩ := tv
      intro m tc vc h0 e0 hInit hPend hchain hne
      have hchain' := hchain
      simp only [withinDebounce, Bool.and_eq_true, decide_eq_true_eq] at hchain'
      obtain ⟨⟨hlt, hltD⟩, hrest⟩ := hchain'
      rw [runNotifications,
          advanceTo_not_due t (tc + debounceInterval) vc m h0 e0 hPend (by omega),
          handleNotification_schedules t v m h0 e0 hInit
            (fun h => hne (t, v) (List.mem_cons_self _ _) h.symm)]
      rw [ih { m with debounceTimer := some (t + debounceInterval, v) } t v h0 e0 hInit rfl
            hrest (fun tv' htv' => hne tv' (List.mem_cons_of_mem _ htv'))]
      simp only [lastFire, lastTV]

/-- C1 (amended): starting from an observation whose last committed value is
`m0.value` (no pending timer, initial flag clear), a change notification
followed by further change notifications, each arriving within the debounce
interval of the previous one, **each carrying a value different from the last
committed value `m0.value`**, with silence afterwards, commits exactly one
`ParameterChange`: it is appended once to the history and sent once as an
event, its timestamp is the last arrival time plus the debounce interval, its
`oldValue` is the value before the burst and its `newValue` the last notified
value (intermediate values are replaced by the latest, never averaged).  The
restriction to values different from `m0.value` is forced by the
counterexample below: the handler compares each notification against the
*stored* value, so a burst returning to `m0.value` commits early with the
previous value instead. -/
theorem debounced_burst_commits_once (m0 : ParameterData) (h0 e0 : List ParameterChange)
    (hInit : m0.isInitialValue = false) (hPend : m0.debounceTimer = none)
    (t1 : Int) (v1 : ℚ) (rest : List (Int × ℚ))
    (hchain : withinDebounce t1 rest = true)
    (hne : ∀ tv ∈ (t1, v1) :: rest, (tv : Int × ℚ).2 ≠ m0.value) :
    runBurst { metadata := some m0, parameterChangeHistory := h0, sentEvents := e0 }
        ((t1, v1) :: rest)
      = { metadata := some { m0 with value := (lastFire (t1, v1) rest).2,
                                     timeLastModified := (lastFire (t1, v1) rest).1,
                                     debounceTimer := none }
          parameterChangeHistory :=
            h0 ++ [mkChange m0 (lastFire (t1, v1) rest).2 (lastFire (t1, v1) rest).1]
          sentEvents :=
            e0 ++ [mkChange m0 (lastFire (t1, v1) rest).2 (lastFire (t1, v1) rest).1] } := by
  unfold runBurst
  rw [runNotifications,
      advanceTo_no_timer t1 m0 h0 e0 hPend,
      handleNotification_schedules t1 v1 m0 h0 e0 hInit
        (fun h => hne (t1, v1) (List.mem_cons_self _ _) h.symm),
      runNotifications_chain rest { m0 with debounceTimer := some (t1 + debounceInterval, v1) }
        t1 v1 h0 e0 hInit rfl hchain
        (fun tv' htv' => hne tv' (List.mem_cons_of_mem _ htv')),
      fireTimer_pending _ (lastFire (t1, v1) rest).1 (lastFire (t1, v1) rest).2 h0 e0 rfl]
  rfl

/-- Concrete instance of `debounced_burst_commits_once`: stored value 4
(range [0, 10]); notifications 5, 6, 7 at t = 0, 100, 200 (gaps of 100 ms,
within the 500 ms debounce window); after silence exactly one change
old 4 → new 7 is committed at t = 700. -/
theorem debounced_burst_commits_once_witness :
    (mkObservation 0 "Drums" 0 "Kit" 3 "Decay" 4 0 10 0).isInitialValue = false
    ∧ (mkObservation 0 "Drums" 0 "Kit" 3 "Decay" 4 0 10 0).debounceTimer = none
    ∧ withinDebounce 0 [(100, 6), (200, 7)] = true
    ∧ (∀ tv ∈ (((0 : Int), (5 : ℚ)) :: [(100, 6), (200, 7)]),
        (tv : Int × ℚ).2 ≠ (mkObservation 0 "Drums" 0 "Kit" 3 "Decay" 4 0 10 0).value)
    ∧ runBurst { metadata := some (mkObservation 0 "Drums" 0 "Kit" 3 "Decay" 4 0 10 0)
                 parameterChangeHistory := []
                 sentEvents := [] } (((0 : Int), (5 : ℚ)) :: [(100, 6), (200, 7)])
      = { metadata := some { mkObservation 0 "Drums" 0 "Kit" 3 "Decay" 4 0 10 0 with
                               value := (lastFire (0, 5) [(100, 6), (200, 7)]).2,
                               timeLastModified := (lastFire (0, 5) [(100, 6), (200, 7)]).1,
                               debounceTimer := none }
          parameterChangeHistory :=
            [] ++ [mkChange (mkObservation 0 "Drums" 0 "Kit" 3 "Decay" 4 0 10 0)
                     (lastFire (0, 5) [(100, 6), (200, 7)]).2
                     (lastFire (0, 5) [(100, 6), (200, 7)]).1]
          sentEvents :=
            [] ++ [mkChange (mkObservation 0 "Drums" 0 "Kit" 3 "Decay" 4 0 10 0)
                     (lastFire (0, 5) [(100, 6), (200, 7)]).2
                     (lastFire (0, 5) [(100, 6), (200, 7)]).1] } :=
  ⟨rfl, rfl, by decide, by decide,
   debounced_burst_commits_once (mkObservation 0 "Drums" 0 "Kit" 3 "Decay" 4 0 10 0) [] []
     rfl rfl 0 5 [(100, 6), (200, 7)] (by decide) (by decide)⟩

/-- C1 counterexample: the claim as stated promises, for **any** burst of
change notifications each within the debounce window of the previous, one
commit at `t_last + D` with `newValue` = the last notified value.  Take stored
value 0 and the burst 1 at t = 0 followed by 0 at t = 100 (each notification
changes the value, each arrives within 500 ms of the previous).  The claim
predicts one commit at timestamp 600 with old 0, new 0.  The code instead
drops the second notification (its value equals the stored value 0) and the
timer from the first fires: the single commit has timestamp 500 and
newValue 1. -/
theorem debounced_burst_claim_counterexample :
    ((runBurst { metadata := some (mkObservation 0 "T" 0 "D" 0 "P" 0 0 1 0)
                 parameterChangeHistory := []
                 sentEvents := [] } [(0, 1), (100, 0)]).parameterChangeHistory.map
        fun c => (c.timestamp, c.oldValue, c.newValue)) = [(500, 0, 1)]
    ∧ ¬ (((runBurst { metadata := some (mkObservation 0 "T" 0 "D" 0 "P" 0 0 1 0)
                      parameterChangeHistory := []
                      sentEvents := [] } [(0, 1), (100, 0)]).parameterChangeHistory.map
          fun c => (c.timestamp, c.oldValue, c.newValue)) = [(600, 0, 0)]) := by
  exact ⟨rfl, by decide⟩

/-! ### C8: invariants of emitted `ParameterChange` records -/

/-- The range part of the C8 invariant, stated on a change record's own
`min`/`max` fields. -/
def changeWithinRange (c : ParameterChange) : Prop :=
  c.min ≤ c.oldValue ∧ c.oldValue ≤ c.max ∧ c.min ≤ c.newValue ∧ c.newValue ≤ c.max

/-- Invariant needing no assumption on inbound values: a pending timer always
captures a value different from the stored one, every committed change has
`oldValue ≠ newValue`, and the event stream mirrors the history. -/
def distinctInv (st : ObserverState) : Prop :=
  (∀ m, st.metadata = some m → ∀ p, m.debounceTimer = some p → Prod.snd p ≠ m.value)
  ∧ (∀ c ∈ st.parameterChangeHistory, c.oldValue ≠ c.newValue)
  ∧ st.sentEvents = st.parameterChangeHistory

/-- Invariant under in-range inputs: the observation's bounds are the fixed
`[lo, hi]`, the stored value and any pending captured value lie within them,
and every committed change is within its recorded range. -/
def rangeInv (lo hi : ℚ) (st : ObserverState) : Prop :=
  (∀ m, st.metadata = some m →
      m.min = lo ∧ m.max = hi ∧ lo ≤ m.value ∧ m.value ≤ hi
      ∧ ∀ p, m.debounceTimer = some p → lo ≤ Prod.snd p ∧ Prod.snd p ≤ hi)
  ∧ (∀ c ∈ st.parameterChangeHistory, changeWithinRange c)

lemma fireTimer_distinctInv (st : ObserverState) (h : distinctInv st) :
    distinctInv (fireTimer st) := by
  obtain ⟨meta, hist, ev⟩ := st
  obtain ⟨hpend, hhist, hev⟩ := h
  dsimp only at hpend hhist hev
  cases meta with
  | none => exact ⟨hpend, hhist, hev⟩
  | some m =>
      cases hp : m.debounceTimer with
      | none => simpa [fireTimer, hp] using ⟨hpend, hhist, hev⟩
      | some p =>
          obtain ⟨fa, pv⟩ := p
          rw [fireTimer_pending m fa pv hist ev hp]
          refine ⟨?_, ?_, ?_⟩
          · intro m' hm' p' hp'
            rw [← Option.some.inj hm'] at hp'
            exact absurd hp' (by simp)
          · intro c hc
            rcases List.mem_append.mp hc with hc | hc
            · exact hhist c hc
            · rw [List.mem_singleton.mp hc]
              exact (hpend m rfl (fa, pv) hp).symm
          · dsimp only
            rw [hev]

lemma handleNotification_distinctInv (t : Int) (v : ℚ) (st : ObserverState)
    (h : distinctInv st) : distinctInv (handleNotification t v st) := by
  obtain ⟨meta, hist, ev⟩ := st
  obtain ⟨hpend, hhist, hev⟩ := h
  dsimp only at hpend hhist hev
  cases meta with
  | none => exact ⟨hpend, hhist, hev⟩
  | some m =>
      by_cases hI : m.isInitialValue
      · have hstep : handleNotification t v
            { metadata := some m, parameterChangeHistory := hist, sentEvents := ev }
            = { metadata := some { m with isInitialValue := false }
                parameterChangeHistory := hist, sentEvents := ev } := by
          simp [handleNotification, hI]
        rw [hstep]
        refine ⟨?_, hhist, hev⟩
        intro m' hm' p hp'
        rw [← Option.some.inj hm'] at hp' ⊢
        exact hpend m rfl p hp'
      · by_cases hEq : m.value = v
        · have hstep : handleNotification t v
              { metadata := some m, parameterChangeHistory := hist, sentEvents := ev }
              = { metadata := some m, parameterChangeHistory := hist, sentEvents := ev } := by
            simp [handleNotification, hI, hEq]
          rw [hstep]
          exact ⟨hpend, hhist, hev⟩
        · rw [handleNotification_schedules t v m hist ev (by simpa using hI) hEq]
          refine ⟨?_, hhist, hev⟩
          intro m' hm' p hp'
          rw [← Option.some.inj hm'] at hp' ⊢
          have hpv : some (t + debounceInterval, v) = some p := hp'
          rw [← Option.some.inj hpv]
          exact fun hcontra => hEq hcontra.symm

lemma advanceTo_distinctInv (t : Int) (st : ObserverState) (h : distinctInv st) :
    distinctInv (advanceTo t st) := by
  obtain ⟨meta, hist, ev⟩ := st
  cases meta with
  | none => exact h
  | some m =>
      cases hp : m.debounceTimer with
      | none => rw [advanceTo_no_timer t m hist ev hp]; exact h
      | some p =>
          obtain ⟨fa, pv⟩ := p
          by_cases hdue : fa ≤ t
          · have hstep : advanceTo t
                { metadata := some m, parameterChangeHistory := hist, sentEvents := ev }
                = fireTimer
                    { metadata := some m, parameterChangeHistory := hist, sentEvents := ev } := by
              simp [advanceTo, hp, hdue]
            rw [hstep]
            exact fireTimer_distinctInv _ h
          · rw [advanceTo_not_due t fa pv m hist ev hp hdue]
            exact h

lemma runNotifications_distinctInv : ∀ (ns : List (Int × ℚ)) (st : ObserverState),
    distinctInv st → distinctInv (runNotifications st ns) := by
  intro ns
  induction ns with
  | nil => intro st h; exact h
  | cons tv rest ih =>
      obtain ⟨t, v⟩ := tv
      intro st h
      exact ih _ (handleNotification_distinctInv t v _ (advanceTo_distinctInv t st h))

lemma runBurst_distinctInv (ns : List (Int × ℚ)) (st : ObserverState) (h : distinctInv st) :
    distinctInv (runBurst st ns) :=
  fireTimer_distinctInv _ (runNotifications_distinctInv ns st h)

lemma fireTimer_rangeInv (lo hi : ℚ) (st : ObserverState) (h : rangeInv lo hi st) :
    rangeInv lo hi (fireTimer st) := by
  obtain ⟨meta, hist, ev⟩ := st
  obtain ⟨hmeta, hhist⟩ := h
  dsimp only at hmeta hhist
  cases meta with
  | none => exact ⟨hmeta, hhist⟩
  | some m =>
      cases hp : m.debounceTimer with
      | none => simpa [fireTimer, hp] using ⟨hmeta, hhist⟩
      | some p =>
          obtain ⟨fa, pv⟩ := p
          obtain ⟨hmin, hmax, hvlo, hvhi, hpending⟩ := hmeta m rfl
          obtain ⟨hplo, hphi⟩ := hpending (fa, pv) hp
          rw [fireTimer_pending m fa pv hist ev hp]
          refine ⟨?_, ?_⟩
          · intro m' hm'
            rw [← Option.some.inj hm']
            exact ⟨hmin, hmax, hplo, hphi, fun p' hp' => absurd hp' (by simp)⟩
          · intro c hc
            rcases List.mem_append.mp hc with hc | hc
            · exact hhist c hc
            · rw [List.mem_singleton.mp hc]
              unfold changeWithinRange mkChange
              dsimp only
              rw [hmin, hmax]
              exact ⟨hvlo, hvhi, hplo, hphi⟩

lemma handleNotification_rangeInv (lo hi : ℚ) (t : Int) (v : ℚ) (st : ObserverState)
    (hv : lo ≤ v ∧ v ≤ hi) (h : rangeInv lo hi st) :
    rangeInv lo hi (handleNotification t v st) := by
  obtain ⟨meta, hist, ev⟩ := st
  obtain ⟨hmeta, hhist⟩ := h
  dsimp only at hmeta hhist
  cases meta with
  | none => exact ⟨hmeta, hhist⟩
  | some m =>
      obtain ⟨hmin, hmax, hvlo, hvhi, hpending⟩ := hmeta m rfl
      by_cases hI : m.isInitialValue
      · have hstep : handleNotification t v
            { metadata := some m, parameterChangeHistory := hist, sentEvents := ev }
            = { metadata := some { m with isInitialValue := false }
                parameterChangeHistory := hist, sentEvents := ev } := by
          simp [handleNotification, hI]
        rw [hstep]
        refine ⟨?_, hhist⟩
        intro m' hm'
        rw [← Option.some.inj hm']
        exact ⟨hmin, hmax, hvlo, hvhi, fun p' hp' => hpending p' hp'⟩
      · by_cases hEq : m.value = v
        · have hstep : handleNotification t v
              { metadata := some m, parameterChangeHistory := hist, sentEvents := ev }
              = { metadata := some m, parameterChangeHistory := hist, sentEvents := ev } := by
            simp [handleNotification, hI, hEq]
          rw [hstep]
          exact ⟨hmeta, hhist⟩
        · rw [handleNotification_schedules t v m hist ev (by simpa using hI) hEq]
          refine ⟨?_, hhist⟩
          intro m' hm'
          rw [← Option.some.inj hm']
          refine ⟨hmin, hmax, hvlo, hvhi, ?_⟩
          intro p' hp'
          have hpv : some (t + debounceInterval, v) = some p' := hp'
          rw [← Option.some.inj hpv]
          exact hv

lemma advanceTo_rangeInv (lo hi : ℚ) (t : Int) (st : ObserverState) (h : rangeInv lo hi st) :
    rangeInv lo hi (advanceTo t st) := by
  obtain ⟨meta, hist, ev⟩ := st
  cases meta with
  | none => exact h
  | some m =>
      cases hp : m.debounceTimer with
      | none => rw [advanceTo_no_timer t m hist ev hp]; exact h
      | some p =>
          obtain ⟨fa, pv⟩ := p
          by_cases hdue : fa ≤ t
          · have hstep : advanceTo t
                { metadata := some m, parameterChangeHistory := hist, sentEvents := ev }
                = fireTimer
                    { metadata := some m, parameterChangeHistory := hist, sentEvents := ev } := by
              simp [advanceTo, hp, hdue]
            rw [hstep]
            exact fireTimer_rangeInv lo hi _ h
          · rw [advanceTo_not_due t fa pv m hist ev hp hdue]
            exact h

lemma runNotifications_rangeInv (lo hi : ℚ) : ∀ (ns : List (Int × ℚ)) (st : ObserverState),
    (∀ tv ∈ ns, lo ≤ Prod.snd tv ∧ Prod.snd tv ≤ hi) →
    rangeInv lo hi st → rangeInv lo hi (runNotifications st ns) := by
  intro ns
  induction ns with
  | nil => intro st _ h; exact h
  | cons tv rest ih =>
      obtain ⟨t, v⟩ := tv
      intro st hvs h
      exact ih _ (fun tv' htv' => hvs tv' (List.mem_cons_of_mem _ htv'))
        (handleNotification_rangeInv lo hi t v _ (hvs (t, v) (List.mem_cons_self _ _))
          (advanceTo_rangeInv lo hi t st h))

lemma runBurst_rangeInv (lo hi : ℚ) (ns : List (Int × ℚ)) (st : ObserverState)
    (hvs : ∀ tv ∈ ns, lo ≤ Prod.snd tv ∧ Prod.snd tv ≤ hi) (h : rangeInv lo hi st) :
    rangeInv lo hi (runBurst st ns) :=
  fireTimer_rangeInv lo hi _ (runNotifications_rangeInv lo hi ns st hvs h)

/-- C8 (amended): for every sequence of inbound notifications processed from a
subscribe-time observation with no pending timer, every `ParameterChange`
committed satisfies `oldValue ≠ newValue`, and the `parameter_change` events
sent mirror the history exactly.  The range bounds
`min ≤ oldValue ≤ max ∧ min ≤ newValue ≤ max` additionally hold **provided**
the initial stored value and every notified value lie within the
observation's `[min, max]` — the handler performs no clamping or range
validation of inbound values (see the counterexample), so the unconditional
claim fails. -/
theorem parameter_change_invariants (m0 : ParameterData) (ns : List (Int × ℚ))
    (hPend : m0.debounceTimer = none) :
    (∀ c ∈ (runBurst { metadata := some m0, parameterChangeHistory := [], sentEvents := [] }
        ns).parameterChangeHistory, c.oldValue ≠ c.newValue)
    ∧ (runBurst { metadata := some m0, parameterChangeHistory := [], sentEvents := [] }
        ns).sentEvents
      = (runBurst { metadata := some m0, parameterChangeHistory := [], sentEvents := [] }
        ns).parameterChangeHistory
    ∧ ((m0.min ≤ m0.value ∧ m0.value ≤ m0.max
        ∧ ∀ tv ∈ ns, m0.min ≤ Prod.snd tv ∧ Prod.snd tv ≤ m0.max) →
        ∀ c ∈ (runBurst { metadata := some m0, parameterChangeHistory := [], sentEvents := [] }
          ns).parameterChangeHistory, changeWithinRange c) := by
  have hd0 : distinctInv
      { metadata := some m0, parameterChangeHistory := [], sentEvents := [] } := by
    refine ⟨?_, ?_, rfl⟩
    · intro m hm p hp
      rw [← Option.some.inj hm, hPend] at hp
      exact absurd hp (by simp)
    · intro c hc
      exact absurd hc (List.not_mem_nil c)
  obtain ⟨hdp, hdh, hde⟩ := runBurst_distinctInv ns _ hd0
  refine ⟨hdh, hde, ?_⟩
  intro ⟨hlo, hhi, hvs⟩
  have hr0 : rangeInv m0.min m0.max
      { metadata := some m0, parameterChangeHistory := [], sentEvents := [] } := by
    refine ⟨?_, ?_⟩
    · intro m hm
      rw [← Option.some.inj hm]
      refine ⟨rfl, rfl, hlo, hhi, ?_⟩
      intro p hp
      rw [hPend] at hp
      exact absurd hp (by simp)
    · intro c hc
      exact absurd hc (List.not_mem_nil c)
  exact (runBurst_rangeInv m0.min m0.max ns _ hvs hr0).2

/-- Concrete instance of `parameter_change_invariants`: stored value 3 in
range [0, 10], in-range notifications 5 then 8 with a gap larger than the
debounce window (two commits); every committed change has distinct old/new
values within range and the events mirror the history. -/
theorem parameter_change_invariants_witness :
    (mkObservation 2 "Synth" 1 "Reverb" 4 "Decay" 3 0 10 0).debounceTimer = none
    ∧ (∀ c ∈ (runBurst { metadata := some (mkObservation 2 "Synth" 1 "Reverb" 4 "Decay" 3 0 10 0)
                         parameterChangeHistory := []
                         sentEvents := [] } [(0, 5), (1000, 8)]).parameterChangeHistory,
        c.oldValue ≠ c.newValue)
    ∧ (runBurst { metadata := some (mkObservation 2 "Synth" 1 "Reverb" 4 "Decay" 3 0 10 0)
                  parameterChangeHistory := []
                  sentEvents := [] } [(0, 5), (1000, 8)]).sentEvents
      = (runBurst { metadata := some (mkObservation 2 "Synth" 1 "Reverb" 4 "Decay" 3 0 10 0)
                    parameterChangeHistory := []
                    sentEvents := [] } [(0, 5), (1000, 8)]).parameterChangeHistory
    ∧ (∀ c ∈ (runBurst { metadata := some (mkObservation 2 "Synth" 1 "Reverb" 4 "Decay" 3 0 10 0)
                         parameterChangeHistory := []
                         sentEvents := [] } [(0, 5), (1000, 8)]).parameterChangeHistory,
        changeWithinRange c) :=
  ⟨rfl,
   (parameter_change_invariants (mkObservation 2 "Synth" 1 "Reverb" 4 "Decay" 3 0 10 0)
      [(0, 5), (1000, 8)] rfl).1,
   (parameter_change_invariants (mkObservation 2 "Synth" 1 "Reverb" 4 "Decay" 3 0 10 0)
      [(0, 5), (1000, 8)] rfl).2.1,
   (parameter_change_invariants (mkObservation 2 "Synth" 1 "Reverb" 4 "Decay" 3 0 10 0)
      [(0, 5), (1000, 8)] rfl).2.2 (by refine ⟨by decide, by decide, ?_⟩; decide)⟩

/-- C8 counterexample: the claim asserts `min ≤ newValue ≤ max` for **every**
sequence of inbound notifications.  The handler does not validate ranges: a
notification carrying 2 against an observation with range [0, 1] is committed
verbatim, giving a `ParameterChange` with `newValue = 2 > max = 1`. -/
theorem out_of_range_commit_counterexample :
    ((runBurst { metadata := some (mkObservation 0 "T" 0 "D" 0 "P" 0 0 1 0)
                 parameterChangeHistory := []
                 sentEvents := [] } [(0, 2)]).parameterChangeHistory.map
        fun c => (c.newValue, c.max)) = [(2, 1)]
    ∧ ¬ (∀ c ∈ (runBurst { metadata := some (mkObservation 0 "T" 0 "D" 0 "P" 0 0 1 0)
                           parameterChangeHistory := []
                           sentEvents := [] } [(0, 2)]).parameterChangeHistory,
          c.newValue ≤ c.max) := by
  exact ⟨rfl, by decide⟩

/-! ### C3: the windowed history (src/ableton.ts:337-353, src/consts.ts:3) -/

/-- The retention window: `10 * 60 * 1000 * 3` ms (src/consts.ts:3). -/
def ABLETON_HISTORY_WINDOW : Int := 10 * 60 * 1000 * 3

/-- `filterRecentParameterChanges` (src/ableton.ts:337-342): keep entries
whose timestamp is strictly greater than `now` minus the window, and store the
filtered list back into the history. -/
def filterRecentParameterChanges (now : Int) (history : List ParameterChange) :
    List ParameterChange :=
  history.filter fun change => decide (now - ABLETON_HISTORY_WINDOW < change.timestamp)

/-- `getRecentParameterChanges` (src/ableton.ts:344-353): first component is
the history as stored after the read-time eviction, second the returned
list (the empty-list early return is the identity on the filtered history). -/
def getRecentParameterChanges (now : Int) (history : List ParameterChange) :
    List ParameterChange × List ParameterChange :=
  let filtered := filterRecentParameterChanges now history
  (filtered, if filtered.length = 0 then [] else filtered)

/-- C3: when every stored timestamp is at most the reading time `now` (commit
timestamps are taken from the wall clock, so reads never see future entries),
the list returned by `getRecentParameterChanges` is exactly the records whose
timestamp lies in the half-open interval `(now − W, now]`, where the window
`W` is 30 minutes; the eviction is performed at read time: the history kept
after the call equals the returned list, so entries with
`timestamp ≤ now − W` are gone. -/
theorem getRecentParameterChanges_window (now : Int) (history : List ParameterChange)
    (hclock : ∀ c ∈ history, c.timestamp ≤ now) :
    ABLETON_HISTORY_WINDOW = 30 * 60 * 1000
    ∧ (getRecentParameterChanges now history).2
        = history.filter (fun c =>
            decide (now - ABLETON_HISTORY_WINDOW < c.timestamp ∧ c.timestamp ≤ now))
    ∧ (getRecentParameterChanges now history).1 = (getRecentParameterChanges now history).2 := by
  have h2 : (getRecentParameterChanges now history).2
      = filterRecentParameterChanges now history := by
    unfold getRecentParameterChanges
    dsimp only
    by_cases hlen : (filterRecentParameterChanges now history).length = 0
    · rw [if_pos hlen]
      exact (List.length_eq_zero.mp hlen).symm
    · rw [if_neg hlen]
  have h3 : filterRecentParameterChanges now history
      = history.filter (fun c =>
          decide (now - ABLETON_HISTORY_WINDOW < c.timestamp ∧ c.timestamp ≤ now)) := by
    unfold filterRecentParameterChanges
    apply List.filter_congr
    intro c hc
    have hle := hclock c hc
    simp only [decide_eq_decide]
    exact ⟨fun h => ⟨h, hle⟩, fun h => h.1⟩
  have h1 : (getRecentParameterChanges now history).1
      = filterRecentParameterChanges now history := rfl
  refine ⟨rfl, by rw [h2, h3], by rw [h1, h2]⟩

/-- Concrete instance of `getRecentParameterChanges_window`: at `now` =
2 000 000 ms a commit stamped 100 000 (older than `now − W = 200 000`) is
evicted while a commit stamped 500 000 is returned. -/
theorem getRecentParameterChanges_window_witness :
    (∀ c ∈ [mkChange (mkObservation 0 "T" 0 "D" 0 "P" 0 0 1 0) 1 100000,
            mkChange (mkObservation 0 "T" 0 "D" 0 "P" 0 0 1 0) 1 500000],
        c.timestamp ≤ 2000000)
    ∧ (ABLETON_HISTORY_WINDOW = 30 * 60 * 1000
      ∧ (getRecentParameterChanges 2000000
            [mkChange (mkObservation 0 "T" 0 "D" 0 "P" 0 0 1 0) 1 100000,
             mkChange (mkObservation 0 "T" 0 "D" 0 "P" 0 0 1 0) 1 500000]).2
          = ([mkChange (mkObservation 0 "T" 0 "D" 0 "P" 0 0 1 0) 1 100000,
              mkChange (mkObservation 0 "T" 0 "D" 0 "P" 0 0 1 0) 1 500000].filter (fun c =>
              decide (2000000 - ABLETON_HISTORY_WINDOW < c.timestamp ∧ c.timestamp ≤ 2000000)))
      ∧ (getRecentParameterChanges 2000000
            [mkChange (mkObservation 0 "T" 0 "D" 0 "P" 0 0 1 0) 1 100000,
             mkChange (mkObservation 0 "T" 0 "D" 0 "P" 0 0 1 0) 1 500000]).1
          = (getRecentParameterChanges 2000000
            [mkChange (mkObservation 0 "T" 0 "D" 0 "P" 0 0 1 0) 1 100000,
             mkChange (mkObservation 0 "T" 0 "D" 0 "P" 0 0 1 0) 1 500000]).2) :=
  ⟨by decide,
   getRecentParameterChanges_window 2000000
     [mkChange (mkObservation 0 "T" 0 "D" 0 "P" 0 0 1 0) 1 100000,
      mkChange (mkObservation 0 "T" 0 "D" 0 "P" 0 0 1 0) 1 500000] (by decide)⟩

/-! ### C6: the agent loop's handling of tool failures
(src/agent.ts:29-45 and the server module's `processMessage`)

The websocket vocabulary is the `WebSocketMessage` union of `types.d.ts`.  A
tool execution is an oracle outcome attached to its `tool_use` block: either
the call threw, or it returned a result (whose JSON string is abstract) that
is truthy or falsy — `generateResponse` sets `is_error` to the falsiness of
the result and rethrows exceptions. -/

inductive WsEvent
  | text (s : String)
  | tool (name : String)
  | end_message
  | confirmation (s : String)
  | error (msg : String)
  | loading_progress (n : Nat)
  | parameter_change (c : ParameterChange)
deriving DecidableEq, Repr

/-- Outcome of executing one tool call against the DAW bridge. -/
inductive ToolOutcome
  | threw (msg : String)
  | returned (falsy : Bool) (content : String)
deriving DecidableEq, Repr

/-- One content block of the assistant's final message; a `tool_use` block
carries the outcome its execution will produce. -/
inductive ContentBlock
  | text (s : String)
  | tool_use (id : String) (name : String) (outcome : ToolOutcome)
deriving DecidableEq, Repr

/-- The tool-result record `generateResponse` builds (src/agent.ts:35-40). -/
structure ToolResult where
  tool_use_id : String
  content : String
  is_error : Bool
deriving DecidableEq, Repr

/-- `generateResponse` (src/agent.ts:29-45): on success return the result with
`is_error = !result` (falsiness); on exception log and **rethrow**. -/
def generateResponse : String → ToolOutcome → Except String ToolResult
  | _, ToolOutcome.threw msg => Except.error msg
  | id, ToolOutcome.returned falsy content =>
      Except.ok { tool_use_id := id, content := content, is_error := falsy }

/-- Result of the `finalMessage` content-block loop (`processMessage`): the
websocket events sent while iterating, the accumulated tool results, whether
any `tool_use` block was seen, and the exception that escaped the loop, if
any. -/
structure BlocksResult where
  events : List WsEvent
  toolResults : List ToolResult
  hasToolUse : Bool
  thrown : Option String
deriving DecidableEq, Repr

/-- The content-block loop of `processMessage`: a text block only goes to the
database; a `tool_use` block sends a `tool` event, runs `generateResponse`,
throws `"tool usage failed!"` when the response has `is_error` set, and
otherwise accumulates the tool result.  An exception stops the iteration. -/
def execBlocks : List ContentBlock → BlocksResult
  | [] => { events := [], toolResults := [], hasToolUse := false, thrown := none }
  | ContentBlock.text _ :: rest => execBlocks rest
  | ContentBlock.tool_use id name outcome :: rest =>
      match generateResponse id outcome with
      | Except.error e =>
          { events := [WsEvent.tool name], toolResults := [], hasToolUse := true,
            thrown := some e }
      | Except.ok response =>
          if response.is_error then
            { events := [WsEvent.tool name], toolResults := [], hasToolUse := true,
              thrown := some "tool usage failed!" }
          else
            { events := WsEvent.tool name :: (execBlocks rest).events
              toolResults := response :: (execBlocks rest).toolResults
              hasToolUse := true
              thrown := (execBlocks rest).thrown }

/-- Outcome of one iteration of the `while (continueLoop)` loop of
`processMessage` for a received final message.

`completed`: the `finalMessage` listener ran to its `resolve()`, the awaited
`Promise.all` settled, and the iteration finished with the events sent, the
tool results appended to the message history for the next LLM call (if any
tool was used), and the loop flag.

`stalled`: an exception escaped the content-block loop.  The throw happens
inside the `async` listener passed to `stream.on("finalMessage", …)`:
`finalMessagePromise` is constructed with only a `resolve`, so the listener's
rejected promise is nobody's business — `resolve()` is never reached,
`finalMessagePromise` never settles, and the
`await Promise.all([stream.done(), finalMessagePromise])` never completes
(`stream.done()` rejects only on stream-level errors, so the surrounding
`try/catch` never sees a tool failure).  The rejection is unhandled (under the
runtime's default policy it kills the process); in every case the iteration
never finishes: no `error` event is sent, nothing is fed back to the LLM, and
the loop never runs again.  The payload records the events that had already
been sent and the unhandled rejection's message. -/
inductive TurnOutcome
  | completed (events : List WsEvent) (feedToLLM : Option (List ToolResult)) (continueLoop : Bool)
  | stalled (events : List WsEvent) (unhandledRejection : String)
deriving DecidableEq, Repr

/-- One iteration of the agent loop after the stream's final message arrives:
the listener sends `end_message` and runs the content blocks.  If a tool
execution throws, the iteration stalls as described on `TurnOutcome`;
otherwise the tool results (if any tool was used) are appended to the message
history as the next user turn and the loop continues. -/
def loopIteration (blocks : List ContentBlock) : TurnOutcome :=
  match (execBlocks blocks).thrown with
  | some e =>
      TurnOutcome.stalled (WsEvent.end_message :: (execBlocks blocks).events) e
  | none =>
      if (execBlocks blocks).hasToolUse then
        TurnOutcome.completed (WsEvent.end_message :: (execBlocks blocks).events)
          (some (execBlocks blocks).toolResults) true
      else
        TurnOutcome.completed (WsEvent.end_message :: (execBlocks blocks).events) none false

lemma execBlocks_append_clean :
    ∀ (pre rest : List ContentBlock), (execBlocks pre).thrown = none →
      execBlocks (pre ++ rest)
        = { events := (execBlocks pre).events ++ (execBlocks rest).events
            toolResults := (execBlocks pre).toolResults ++ (execBlocks rest).toolResults
            hasToolUse := (execBlocks pre).hasToolUse || (execBlocks rest).hasToolUse
            thrown := (execBlocks rest).thrown } := by
  intro pre
  induction pre with
  | nil =>
      intro rest _
      simp [execBlocks]
  | cons b pre ih =>
      intro rest hclean
      cases b with
      | text s =>
          rw [List.cons_append]
          show execBlocks (pre ++ rest) = _
          rw [ih rest hclean]
          rfl
      | tool_use id name outcome =>
          cases outcome with
          | threw msg =>
              exact absurd hclean (by simp [execBlocks, generateResponse])
          | returned falsy content =>
              cases falsy with
              | true =>
                  exact absurd hclean (by simp [execBlocks, generateResponse])
              | false =>
                  have hstep : ∀ l, execBlocks (ContentBlock.tool_use id name
                      (ToolOutcome.returned false content) :: l)
                      = { events := WsEvent.tool name :: (execBlocks l).events
                          toolResults := { tool_use_id := id, content := content,
                                           is_error := false } :: (execBlocks l).toolResults
                          hasToolUse := true
                          thrown := (execBlocks l).thrown } := by
                    intro l
                    simp [execBlocks, generateResponse]
                  have hclean' : (execBlocks pre).thrown = none := by
                    rw [hstep pre] at hclean
                    exact hclean
                  rw [List.cons_append, hstep (pre ++ rest), hstep pre, ih rest hclean']
                  simp

/-- C6 (amended): a failing tool execution stalls the turn instead of being
fed back.  If the blocks before the failing `tool_use` all executed cleanly,
then for a tool whose execution throws `msg` (and likewise for one returning a
falsy result, which `processMessage` converts into a thrown
`"tool usage failed!"`), the client has received `end_message`, the preceding
events and the failing tool's `tool` event, and then the turn stalls: the
exception escapes the async `finalMessage` listener as an unhandled rejection,
`finalMessagePromise` never resolves, the awaited turn never completes and the
catch block never runs — no `error` event is sent, **no** tool result reaches
the LLM, and the loop does not continue.  No `function_result`-like event
exists in the wire vocabulary at all. -/
theorem tool_error_aborts_turn (pre : List ContentBlock) (id name msg content : String)
    (post : List ContentBlock) (hclean : (execBlocks pre).thrown = none) :
    loopIteration (pre ++ ContentBlock.tool_use id name (ToolOutcome.threw msg) :: post)
      = TurnOutcome.stalled
          (WsEvent.end_message :: (execBlocks pre).events ++ [WsEvent.tool name]) msg
    ∧ loopIteration (pre ++ ContentBlock.tool_use id name
        (ToolOutcome.returned true content) :: post)
      = TurnOutcome.stalled
          (WsEvent.end_message :: (execBlocks pre).events ++ [WsEvent.tool name])
          "tool usage failed!" := by
  constructor
  · have hfail : execBlocks (ContentBlock.tool_use id name (ToolOutcome.threw msg) :: post)
        = { events := [WsEvent.tool name], toolResults := [], hasToolUse := true,
            thrown := some msg } := rfl
    have hall := execBlocks_append_clean pre
      (ContentBlock.tool_use id name (ToolOutcome.threw msg) :: post) hclean
    rw [hfail] at hall
    unfold loopIteration
    split
    · rename_i e he
      rw [hall] at he
      simp only at he
      cases Option.some.inj he
      rw [hall]
      simp
    · rename_i he
      rw [hall] at he
      simp at he
  · have hfail : execBlocks (ContentBlock.tool_use id name
        (ToolOutcome.returned true content) :: post)
        = { events := [WsEvent.tool name], toolResults := [], hasToolUse := true,
            thrown := some "tool usage failed!" } := rfl
    have hall := execBlocks_append_clean pre
      (ContentBlock.tool_use id name (ToolOutcome.returned true content) :: post) hclean
    rw [hfail] at hall
    unfold loopIteration
    split
    · rename_i e he
      rw [hall] at he
      simp only at he
      cases Option.some.inj he
      rw [hall]
      simp
    · rename_i he
      rw [hall] at he
      simp at he

/-- Concrete instance of `tool_error_aborts_turn`: after a clean text block, a
`get_device_params` call that throws `"Timeout"` (or returns a falsy result)
stalls the turn after the `tool` event, with nothing fed to the LLM. -/
theorem tool_error_aborts_turn_witness :
    (execBlocks [ContentBlock.text "Okay, checking."]).thrown = none
    ∧ (loopIteration ([ContentBlock.text "Okay, checking."]
          ++ ContentBlock.tool_use "toolu_01" "get_device_params"
               (ToolOutcome.threw "Timeout") :: [])
        = TurnOutcome.stalled
            (WsEvent.end_message :: (execBlocks [ContentBlock.text "Okay, checking."]).events
              ++ [WsEvent.tool "get_device_params"]) "Timeout"
      ∧ loopIteration ([ContentBlock.text "Okay, checking."]
          ++ ContentBlock.tool_use "toolu_01" "get_device_params"
               (ToolOutcome.returned true "null") :: [])
        = TurnOutcome.stalled
            (WsEvent.end_message :: (execBlocks [ContentBlock.text "Okay, checking."]).events
              ++ [WsEvent.tool "get_device_params"]) "tool usage failed!") :=
  ⟨rfl,
   tool_error_aborts_turn [ContentBlock.text "Okay, checking."] "toolu_01" "get_device_params"
     "Timeout" "null" [] rfl⟩

/-- C6 counterexample: the claim says a failing tool execution is returned to
the LLM as an error-flagged tool result, surfaced as a `function_result`
event, and that the loop continues with a further LLM call.  For the single
block `tool_use "toolu_01" "get_device_params"` whose execution throws
`"boom"`, the client receives only `end_message` and the `tool` event and the
turn stalls on the unhandled rejection: the iteration never completes at all
(there is no completed outcome with any events, feedback or loop flag), so
nothing is returned to the LLM and no further LLM call happens — and the wire
vocabulary has no `function_result` kind to surface the error with. -/
theorem tool_error_claim_counterexample :
    loopIteration [ContentBlock.tool_use "toolu_01" "get_device_params"
        (ToolOutcome.threw "boom")]
      = TurnOutcome.stalled [WsEvent.end_message, WsEvent.tool "get_device_params"] "boom"
    ∧ ¬ ∃ events feedToLLM continueLoop,
        loopIteration [ContentBlock.tool_use "toolu_01" "get_device_params"
            (ToolOutcome.threw "boom")]
          = TurnOutcome.completed events feedToLLM continueLoop := by
  refine ⟨rfl, ?_⟩
  rintro ⟨ev, fb, cl, h⟩
  rw [show loopIteration [ContentBlock.tool_use "toolu_01" "get_device_params"
        (ToolOutcome.threw "boom")]
      = TurnOutcome.stalled [WsEvent.end_message, WsEvent.tool "get_device_params"] "boom"
    from rfl] at h
  simp at h

/-! ### C7: the startup liveness check
(`isLive`, src/ableton.ts:457-473, and the server module's startup code) -/

/-- `isLive`: races `sendOSC "/live/test"` against a 5000 ms timeout; true iff
the reply arrives before the timeout rejects.  The input is the arrival time
of the `/live/test` reply, `none` if no reply ever arrives. -/
def isLive (testReplyTime : Option Int) : Bool :=
  match testReplyTime with
  | some t => decide (t < 5000)
  | none => false

/-- What the process prints and exits with when the startup check fails. -/
structure StartupExit where
  code : Nat
  stdoutLine : String
deriving DecidableEq, Repr

/-- The startup liveness gate of the server module: when `isLive` is false it
logs `"Unable to connect to Ableton. Exiting..."` via `console.log` (standard
output) and calls the runtime exit with status `0`; otherwise the process
continues (`none`). -/
def startupLivenessCheck (testReplyTime : Option Int) : Option StartupExit :=
  if isLive testReplyTime then none
  else some { code := 0, stdoutLine := "Unable to connect to Ableton. Exiting..." }

/-- C7 (amended): when the DAW is unreachable at startup (`isLive` returns
false, in particular when no `/live/test` reply ever arrives within the 5 s
timeout), the process exits with status **0** — not non-zero — and the
diagnostic goes to standard output; the fixed message names neither the
configured host nor the port. -/
theorem startup_liveness_exit (testReplyTime : Option Int)
    (h : isLive testReplyTime = false) :
    startupLivenessCheck testReplyTime
      = some { code := 0, stdoutLine := "Unable to connect to Ableton. Exiting..." } := by
  simp [startupLivenessCheck, h]

/-- Concrete instance of `startup_liveness_exit`: no reply at all. -/
theorem startup_liveness_exit_witness :
    isLive none = false
    ∧ startupLivenessCheck none
      = some { code := 0, stdoutLine := "Unable to connect to Ableton. Exiting..." } :=
  ⟨rfl, startup_liveness_exit none rfl⟩

/-- C7 counterexample: the claim requires a non-zero exit status and a
diagnostic on standard error naming the DAW host/port.  With no `/live/test`
reply the process exits with status 0, and the only diagnostic is the fixed
stdout line `"Unable to connect to Ableton. Exiting..."`, which contains
neither the default host string `"127.0.0.1"` nor any port number. -/
theorem startup_exit_zero_counterexample :
    startupLivenessCheck none
      = some { code := 0, stdoutLine := "Unable to connect to Ableton. Exiting..." }
    ∧ ¬ (∀ e, startupLivenessCheck none = some e → e.code ≠ 0) := by
  refine ⟨rfl, fun h => h _ rfl rfl⟩
